import Mathlib

/-!
Verification of the conduwuit homeserver core against its specification.

Shallow embedding of the membership engine (`src/api/client/membership.rs`),
the outbound federation sender (`src/service/sending/mod.rs`) and the schema
migrations (`src/service/globals/migrations.rs`).  Each definition transcribes
the control flow of the named Rust item; machine integers are modelled as
`Nat` (saturating additions are made explicit, and all counters stay far below
their bit width in every statement proved here).
-/

namespace Conduwuit

/-- A Matrix server name, e.g. `"example.com"`. -/
abbrev ServerName := String

/-- A Matrix user id, split into its localpart and the server that owns it
(`user_id.server_name()` in the source). -/
structure UserId where
  localpart : String
  server : ServerName
deriving DecidableEq, Repr

/-- A Matrix room id (opaque string). -/
abbrev RoomId := String

/-! ## Outbound sender: transaction status and backoff
Embedding of `TransactionStatus` and `Service::mark_failed_and_backoff`
from `src/service/sending/mod.rs`. -/

/-- `TransactionStatus` from the sender.  The oneshot waker handle is
modelled by a `Bool` recording whether a waker is registered. -/
inductive TransactionStatus
  /-- Currently running (for the first time). -/
  | running
  /-- Failed, backing off for a retry. -/
  | failed (failures : Nat) (hasWaker : Bool)
  /-- Currently retrying; `failures` is the number of times failed. -/
  | retrying (failures : Nat)
deriving DecidableEq, Repr

/-- `ONE_DAY` from `mark_failed_and_backoff`, in seconds. -/
def ONE_DAY : Nat := 60 * 60 * 24

/-- `Service::mark_failed_and_backoff`: computes the incremented failure
count (`Running` counts as 1, `Retrying f` becomes `f + 1`; the function is
`unreachable!` on `Failed`, modelled as `none`), stores
`Failed { failures, waker: Some(..) }` and returns the backoff wait
`(30 s * failures * failures).min(ONE_DAY)` measured from now.  The result
is the pair of the new status and the wait in seconds. -/
def mark_failed_and_backoff (entry : TransactionStatus) : Option (TransactionStatus × Nat) :=
  match entry with
  | .running => some (.failed 1 true, min (30 * 1 * 1) ONE_DAY)
  | .retrying f => some (.failed (f + 1) true, min (30 * (f + 1) * (f + 1)) ONE_DAY)
  | .failed _ _ => none

/-- Claim C6: on every transaction failure the failure count is incremented
(`Running` becomes 1, `Retrying (f-1)` becomes `f`), the destination is put
into `Failed` with a registered waker, the retry timer is scheduled exactly
`min (30 s * f * f) (24 h)` after the failure, and the wait never exceeds
24 hours. -/
theorem mark_failed_and_backoff_spec (entry st : TransactionStatus) (wait : Nat)
    (h : mark_failed_and_backoff entry = some (st, wait)) :
    ∃ f, st = .failed f true ∧
      wait = min (30 * f * f) ONE_DAY ∧
      (entry = .running → f = 1) ∧
      (∀ g, entry = .retrying g → f = g + 1) ∧
      wait ≤ ONE_DAY := by
  cases entry with
  | running =>
      simp only [mark_failed_and_backoff, Option.some.injEq, Prod.mk.injEq] at h
      obtain ⟨h1, h2⟩ := h
      subst h1; subst h2
      refine ⟨1, rfl, rfl, fun _ => rfl, ?_, min_le_right _ _⟩
      intro g hg
      exact absurd hg (by simp)
  | retrying g =>
      simp only [mark_failed_and_backoff, Option.some.injEq, Prod.mk.injEq] at h
      obtain ⟨h1, h2⟩ := h
      subst h1; subst h2
      refine ⟨g + 1, rfl, rfl, ?_, ?_, min_le_right _ _⟩
      · intro hr
        exact absurd hr (by simp)
      · intro g2 hg
        rw [show g = g2 from by injection hg]
  | failed f w => simp [mark_failed_and_backoff] at h

/-- Witness for C6: a destination in `Retrying 2` transitions to
`Failed 3` with waker and a 270 second wait, which is at most one day. -/
theorem mark_failed_and_backoff_spec_witness :
    ∃ f, TransactionStatus.failed 3 true = .failed f true ∧
      270 = min (30 * f * f) ONE_DAY ∧
      (TransactionStatus.retrying 2 = .running → f = 1) ∧
      (∀ g, TransactionStatus.retrying 2 = .retrying g → f = g + 1) ∧
      270 ≤ ONE_DAY :=
  mark_failed_and_backoff_spec (.retrying 2) (.failed 3 true) 270 (by decide)

/-! ## Remote join: `make_join_request`
Embedding of `make_join_request` from `src/api/client/membership.rs`.
Each candidate server is represented by the outcome of contacting it. -/

/-- Outcome of one `make_join` federation request to a candidate server.
`ours` stands for a server that `server_is_ours` skips. -/
inductive MakeJoinResp
  /-- The candidate server is our own server and is skipped. -/
  | ours
  /-- A successful `make_join` response. -/
  | ok
  /-- An error response whose kind string contains M_INCOMPATIBLE_ROOM_VERSION
  or M_UNSUPPORTED_ROOM_VERSION. -/
  | errIncompatibleVersion
  /-- Any other error response. -/
  | errOther
deriving DecidableEq, Repr

/-- Result of `make_join_request`. -/
inductive MakeJoinResult
  /-- The first successful response, tagged with the index of the server in
  the candidate list. -/
  | success (server : Nat)
  /-- BadServerResponse: Room version is not supported by Conduwuit. -/
  | roomVersionUnsupported
  /-- BadServerResponse: No server available to assist in joining.  This is
  both the initial value of the accumulator and the over-50-attempts abort. -/
  | noServerAvailable
  /-- The loop exhausted the candidate list; the error of the last attempt is
  propagated (tagged with whether it was an incompatible-version error). -/
  | lastError (incompatibleVersion : Bool)
deriving DecidableEq, Repr

/-- Saturating add of one, `saturating_add(1)` on a machine integer whose
maximal value is `bound`. -/
def saturatingAddOne (bound c : Nat) : Nat := min (c + 1) bound

/-- The loop of `make_join_request` over the candidate servers.  `idx` is the
position in the original list, `counter` is `make_join_counter : u16`,
`incompat` is `incompatible_room_version_count : u8` and `stored` is
`make_join_response_and_server`. -/
def make_join_loop : List MakeJoinResp → Nat → Nat → Nat → MakeJoinResult → MakeJoinResult
  | [], _, _, _, stored => stored
  | r :: rest, idx, counter, incompat, stored =>
    match r with
    | .ours => make_join_loop rest (idx + 1) counter incompat stored
    | .ok =>
      -- counter is incremented, then the error branch is skipped, the
      -- response is stored and the loop breaks on is_ok
      .success idx
    | .errIncompatibleVersion =>
      let counter := saturatingAddOne 65535 counter
      let incompat := saturatingAddOne 255 incompat
      if 15 < incompat then .roomVersionUnsupported
      else if 50 < counter then .noServerAvailable
      else make_join_loop rest (idx + 1) counter incompat (.lastError true)
    | .errOther =>
      let counter := saturatingAddOne 65535 counter
      if 15 < incompat then .roomVersionUnsupported
      else if 50 < counter then .noServerAvailable
      else make_join_loop rest (idx + 1) counter incompat (.lastError false)

/-- `make_join_request`: iterate over the candidate servers with both
counters at zero and the accumulator holding the
"No server available to assist in joining." error. -/
def make_join_request (servers : List MakeJoinResp) : MakeJoinResult :=
  make_join_loop servers 0 0 0 .noServerAvailable

/-- Counterexample to claim C2: after 15 incompatible-room-version responses
the loop does not abort; it still tries the next candidate server and a
success there is returned.  The abort would require a 16th such response. -/
theorem make_join_fifteen_not_aborted :
    make_join_request (List.replicate 15 .errIncompatibleVersion ++ [.ok]) = .success 15 ∧
    make_join_request (List.replicate 15 .errIncompatibleVersion ++ [.ok]) ≠
      .roomVersionUnsupported := by
  constructor <;> decide

/-- Claim C2 as amended: the incompatible-room-version counter is cumulative
over all attempts (it is never reset), and the join aborts with the
"Room version is not supported by Conduwuit" error as soon as the counter
exceeds 15, that is on the 16th such response, without contacting any further
candidate server; 15 such responses do not abort. -/
theorem make_join_version_threshold :
    (∀ rest, make_join_request (List.replicate 16 .errIncompatibleVersion ++ rest) =
      .roomVersionUnsupported) ∧
    (∀ rest, make_join_request
      (List.replicate 8 .errIncompatibleVersion ++ [.errOther] ++
        List.replicate 8 .errIncompatibleVersion ++ rest) = .roomVersionUnsupported) ∧
    make_join_request (List.replicate 15 .errIncompatibleVersion ++ [.ok]) = .success 15 := by
  refine ⟨fun rest => ?_, fun rest => ?_, by decide⟩ <;> rfl

/-- Counterexample to claim C7: after 50 failed attempts the loop does not
abort; it still tries a 51st candidate server and a success there is
returned. -/
theorem make_join_fifty_not_aborted :
    make_join_request (List.replicate 50 .errOther ++ [.ok]) = .success 50 ∧
    make_join_request (List.replicate 50 .errOther ++ [.ok]) ≠ .noServerAvailable := by
  constructor <;> decide

/-- Claim C7 as amended: the join aborts with the
"No server available to assist in joining." error when a failed attempt
raises the attempt counter above 50, that is on the 51st failed attempt,
without contacting any further candidate server; after 50 failed attempts
a 51st candidate is still tried and may succeed. -/
theorem make_join_attempt_threshold :
    (∀ rest, make_join_request (List.replicate 51 .errOther ++ rest) = .noServerAvailable) ∧
    make_join_request (List.replicate 50 .errOther ++ [.ok]) = .success 50 := by
  refine ⟨fun rest => ?_, by decide⟩
  rfl

/-! ## Outbound sender: EDU selection
Embedding of `Service::select_edus`, `select_edus_receipts` and
`select_edus_presence` from `src/service/sending/mod.rs`.  The `&mut`
accumulators (`events`, `max_edu_count`, `device_list_changes`) become
explicit arguments and results. -/

/-- `SELECT_EDU_LIMIT` from the sender. -/
def SELECT_EDU_LIMIT : Nat := 16

/-- A serialized EDU pushed into the `events` vector, abstracted to its
category and payload. -/
inductive Edu
  /-- `Edu::DeviceListUpdate` for one user (placeholder content). -/
  | deviceListUpdate (user : UserId)
  /-- `Edu::Receipt` built from one read-receipt row. -/
  | receipt (user : UserId) (count : Nat)
  /-- `Edu::Presence` bundling a list of presence updates. -/
  | presenceBundle (updates : List (UserId × Nat))
deriving DecidableEq, Repr

/-- Whether an EDU is a read receipt. -/
def Edu.isReceipt : Edu → Bool
  | .receipt _ _ => true
  | _ => false

/-- Whether an EDU is a device-list update. -/
def Edu.isDeviceListUpdate : Edu → Bool
  | .deviceListUpdate _ => true
  | _ => false

/-- Whether an EDU is a presence bundle. -/
def Edu.isPresenceBundle : Edu → Bool
  | .presenceBundle _ => true
  | _ => false

/-- One row of `readreceipts_since(room, since)`: the receipt of `user`
with stream count `count`. -/
structure ReceiptRecord where
  user : UserId
  count : Nat
deriving DecidableEq, Repr

/-- One row of `presence_since(since)`: the presence of `user` with stream
count `count`. -/
structure PresenceRecord where
  user : UserId
  count : Nat
deriving DecidableEq, Repr

/-- Per-room data consumed by `select_edus` for one room the peer shares:
the users returned by `keys_changed(room, since, None)` and the read
receipts returned by `readreceipts_since(room, since)`. -/
structure RoomData where
  keysChanged : List UserId
  receipts : List ReceiptRecord
deriving DecidableEq, Repr

/-- The state read by one `select_edus(server_name)` call. -/
structure SelectEduInput where
  /-- `services().globals.server_name()`. -/
  ourServer : ServerName
  /-- `server_rooms(server_name)`: the rooms the peer shares with us. -/
  rooms : List RoomData
  /-- `allow_outgoing_read_receipts()`. -/
  allowReadReceipts : Bool
  /-- `allow_outgoing_presence()`. -/
  allowPresence : Bool
  /-- `presence_since(since)`. -/
  presence : List PresenceRecord
  /-- The users `u` with `server_sees_user(server_name, u)`. -/
  seenUsers : List UserId
  /-- `get_latest_educount(server_name)`. -/
  since : Nat
deriving DecidableEq, Repr

/-- `HashSet::insert`: extensionally, membership-preserving insertion.  The
iteration order of the Rust hash set is unspecified; this model fixes
first-insertion order, which is irrelevant to the counted properties. -/
def hashset_insert (s : List UserId) (u : UserId) : List UserId :=
  if u ∈ s then s else s ++ [u]

/-- `HashSet::extend` over a list of users. -/
def hashset_extend (s : List UserId) (us : List UserId) : List UserId :=
  us.foldl hashset_insert s

/-- `select_edus_receipts(room, since, max_edu_count, events)`: walks the
read-receipt rows of one room, raises `max_edu_count`, skips non-local
users, pushes one receipt EDU per remaining row and stops returning `false`
(the third component) as soon as `events.len() >= SELECT_EDU_LIMIT` after a
push; returns `true` when the rows are exhausted. -/
def select_edus_receipts (ourServer : ServerName) :
    List ReceiptRecord → Nat → List Edu → List Edu × Nat × Bool
  | [], maxEduCount, events => (events, maxEduCount, true)
  | r :: rs, maxEduCount, events =>
    let maxEduCount := max r.count maxEduCount
    if r.user.server ≠ ourServer then
      select_edus_receipts ourServer rs maxEduCount events
    else
      let events := events ++ [Edu.receipt r.user r.count]
      if SELECT_EDU_LIMIT ≤ events.length then (events, maxEduCount, false)
      else select_edus_receipts ourServer rs maxEduCount events

/-- The update-collection loop of `select_edus_presence`: walks
`presence_since(since)`, raises `max_edu_count`, skips non-local users and
users the peer does not see, collects updates and breaks once
`presence_updates.len() >= SELECT_EDU_LIMIT`. -/
def presence_updates_loop (ourServer : ServerName) (seenUsers : List UserId) :
    List PresenceRecord → Nat → List (UserId × Nat) → Nat × List (UserId × Nat)
  | [], maxEduCount, updates => (maxEduCount, updates)
  | p :: ps, maxEduCount, updates =>
    let maxEduCount := max p.count maxEduCount
    if p.user.server ≠ ourServer then
      presence_updates_loop ourServer seenUsers ps maxEduCount updates
    else if p.user ∉ seenUsers then
      presence_updates_loop ourServer seenUsers ps maxEduCount updates
    else
      let updates := updates ++ [(p.user, p.count)]
      if SELECT_EDU_LIMIT ≤ updates.length then (maxEduCount, updates)
      else presence_updates_loop ourServer seenUsers ps maxEduCount updates

/-- `select_edus_presence(server_name, since, max_edu_count, events)`:
collects at most `SELECT_EDU_LIMIT` presence updates and then
unconditionally pushes one presence-bundle EDU onto `events`. -/
def select_edus_presence (ourServer : ServerName) (seenUsers : List UserId)
    (presence : List PresenceRecord) (maxEduCount : Nat) (events : List Edu) :
    Nat × List Edu :=
  let r := presence_updates_loop ourServer seenUsers presence maxEduCount []
  (r.1, events ++ [Edu.presenceBundle r.2])

/-- The room loop of `select_edus`: for each shared room, extend the
device-list-change set with the local users from `keys_changed`, then (when
outgoing read receipts are allowed) run `select_edus_receipts`, breaking
out of the loop when it reports the limit was hit. -/
def select_edus_rooms (ourServer : ServerName) (allowReadReceipts : Bool) :
    List RoomData → List UserId → Nat → List Edu → List UserId × Nat × List Edu
  | [], deviceListChanges, maxEduCount, events => (deviceListChanges, maxEduCount, events)
  | room :: rooms, deviceListChanges, maxEduCount, events =>
    let deviceListChanges := hashset_extend deviceListChanges
      (room.keysChanged.filter (fun u => u.server = ourServer))
    if allowReadReceipts then
      match select_edus_receipts ourServer room.receipts maxEduCount events with
      | (events, maxEduCount, false) => (deviceListChanges, maxEduCount, events)
      | (events, maxEduCount, true) =>
        select_edus_rooms ourServer allowReadReceipts rooms deviceListChanges maxEduCount events
    else
      select_edus_rooms ourServer allowReadReceipts rooms deviceListChanges maxEduCount events

/-- `Service::select_edus(server_name)`: runs the room loop (receipts and
device-list collection), then pushes one device-list EDU per collected user,
then (when outgoing presence is allowed) the presence bundle.  Returns the
events and the new `latest_educount`. -/
def select_edus (inp : SelectEduInput) : List Edu × Nat :=
  let r := select_edus_rooms inp.ourServer inp.allowReadReceipts inp.rooms [] inp.since []
  let deviceListChanges := r.1
  let maxEduCount := r.2.1
  let events := r.2.2 ++ deviceListChanges.map Edu.deviceListUpdate
  if inp.allowPresence then
    let p := select_edus_presence inp.ourServer inp.seenUsers inp.presence maxEduCount events
    (p.2, p.1)
  else
    (events, maxEduCount)

/-- A state with one shared room carrying sixteen local read receipts,
outgoing receipts and presence both enabled. -/
def eduCexInput : SelectEduInput :=
  ⟨"ours", [⟨[], (List.range 16).map (fun i => ⟨⟨toString i, "ours"⟩, 0⟩)⟩],
    true, true, [], [], 0⟩

/-- Counterexample to claim C1: a single `select_edus` call can return more
than 16 EDU items: sixteen read receipts fill the limit and the presence
bundle is appended regardless, giving 17 items. -/
theorem select_edus_exceeds_limit :
    SELECT_EDU_LIMIT < ((select_edus eduCexInput).1).length := by decide

/-- The receipt pass appends only receipt EDUs, never grows `events` beyond
`SELECT_EDU_LIMIT` when entered below the limit, and reports `true` only
while still strictly below the limit. -/
theorem select_edus_receipts_spec (ourServer : ServerName) (rs : List ReceiptRecord)
    (maxEduCount : Nat) (events : List Edu) (h : events.length < SELECT_EDU_LIMIT) :
    ∃ new,
      (select_edus_receipts ourServer rs maxEduCount events).1 = events ++ new ∧
      (∀ e ∈ new, e.isReceipt = true) ∧
      (select_edus_receipts ourServer rs maxEduCount events).1.length ≤ SELECT_EDU_LIMIT ∧
      ((select_edus_receipts ourServer rs maxEduCount events).2.2 = true →
        (select_edus_receipts ourServer rs maxEduCount events).1.length < SELECT_EDU_LIMIT) := by
  induction rs generalizing maxEduCount events with
  | nil =>
      refine ⟨[], by simp [select_edus_receipts], ?_, ?_, ?_⟩
      · intro e he; simp at he
      · simpa [select_edus_receipts] using Nat.le_of_lt h
      · intro _; simpa [select_edus_receipts] using h
  | cons r rs ih =>
      by_cases hs : r.user.server = ourServer
      · by_cases hl : SELECT_EDU_LIMIT ≤ (events ++ [Edu.receipt r.user r.count]).length
        · have hl2 : SELECT_EDU_LIMIT ≤ events.length + 1 := by simpa using hl
          refine ⟨[Edu.receipt r.user r.count], ?_, ?_, ?_, ?_⟩
          · simp only [select_edus_receipts, hs, ne_eq, not_true_eq_false, if_false, hl,
              if_true]
          · intro e he
            simp only [List.mem_singleton] at he
            subst he; rfl
          · simp only [select_edus_receipts, hs, ne_eq, not_true_eq_false, if_false, hl, hl2,
              if_true, List.length_append, List.length_singleton]
            omega
          · simp only [select_edus_receipts, hs, ne_eq, not_true_eq_false, if_false, hl,
              if_true]
            intro hfalse
            exact absurd hfalse (by simp)
        · have h2 : (events ++ [Edu.receipt r.user r.count]).length < SELECT_EDU_LIMIT := by
            omega
          obtain ⟨new, hnew, hrec, hlen, hflag⟩ :=
            ih (max r.count maxEduCount) (events ++ [Edu.receipt r.user r.count]) h2
          refine ⟨Edu.receipt r.user r.count :: new, ?_, ?_, ?_, ?_⟩
          · simp only [select_edus_receipts, hs, ne_eq, not_true_eq_false, if_false, hl,
              if_false]
            rw [hnew, List.append_assoc]
            rfl
          · intro e he
            rcases List.mem_cons.mp he with h3 | h3
            · subst h3; rfl
            · exact hrec e h3
          · simpa only [select_edus_receipts, hs, ne_eq, not_true_eq_false, if_false, hl,
              if_false] using hlen
          · simpa only [select_edus_receipts, hs, ne_eq, not_true_eq_false, if_false, hl,
              if_false] using hflag
      · obtain ⟨new, hnew, hrec, hlen, hflag⟩ := ih (max r.count maxEduCount) events h
        refine ⟨new, ?_, hrec, ?_, ?_⟩
        · simpa only [select_edus_receipts, hs, ne_eq, not_false_eq_true, if_true] using hnew
        · simpa only [select_edus_receipts, hs, ne_eq, not_false_eq_true, if_true] using hlen
        · simpa only [select_edus_receipts, hs, ne_eq, not_false_eq_true, if_true] using hflag

/-- The room loop of `select_edus` keeps `events` all-receipts and below or
at `SELECT_EDU_LIMIT`. -/
theorem select_edus_rooms_spec (ourServer : ServerName) (allow : Bool)
    (rooms : List RoomData) (dlc : List UserId) (maxEduCount : Nat) (events : List Edu)
    (h : events.length < SELECT_EDU_LIMIT) (hr : ∀ e ∈ events, e.isReceipt = true) :
    (∀ e ∈ (select_edus_rooms ourServer allow rooms dlc maxEduCount events).2.2,
      e.isReceipt = true) ∧
    (select_edus_rooms ourServer allow rooms dlc maxEduCount events).2.2.length ≤
      SELECT_EDU_LIMIT := by
  induction rooms generalizing dlc maxEduCount events with
  | nil =>
      exact ⟨by simpa [select_edus_rooms] using hr,
        by simpa [select_edus_rooms] using Nat.le_of_lt h⟩
  | cons room rooms ih =>
      cases allow with
      | false =>
          have := ih (hashset_extend dlc (room.keysChanged.filter (fun u => u.server = ourServer)))
            maxEduCount events h hr
          simpa only [select_edus_rooms, Bool.false_eq_true, if_false] using this
      | true =>
          obtain ⟨new, hnew, hrec, hlen, hflag⟩ :=
            select_edus_receipts_spec ourServer room.receipts maxEduCount events h
          rcases hre : select_edus_receipts ourServer room.receipts maxEduCount events with
            ⟨evs1, maxC1, flag⟩
          rw [hre] at hnew hlen hflag
          simp only at hnew hlen hflag
          have hall1 : ∀ e ∈ evs1, e.isReceipt = true := by
            intro e he
            rw [hnew] at he
            rcases List.mem_append.mp he with h3 | h3
            · exact hr e h3
            · exact hrec e h3
          cases flag with
          | false =>
              constructor
              · simpa only [select_edus_rooms, hre, if_true] using hall1
              · simpa only [select_edus_rooms, hre, if_true] using hlen
          | true =>
              have h1 : evs1.length < SELECT_EDU_LIMIT := hflag rfl
              have := ih
                (hashset_extend dlc (room.keysChanged.filter (fun u => u.server = ourServer)))
                maxC1 evs1 h1 hall1
              simpa only [select_edus_rooms, hre, if_true] using this

/-- Claim C1 as amended: one `select_edus` call returns, in order, at most
`SELECT_EDU_LIMIT` (16) read-receipt EDUs, then one device-list EDU per
local user with a device-list change in a shared room with no limit applied,
then at most one presence bundle (appended exactly when outgoing presence is
allowed).  Only the receipt category is bounded by 16, so the total may
exceed 16. -/
theorem select_edus_breakdown (inp : SelectEduInput) :
    ∃ receipts deviceLists presenceBundles,
      (select_edus inp).1 = receipts ++ deviceLists ++ presenceBundles ∧
      (∀ e ∈ receipts, e.isReceipt = true) ∧
      receipts.length ≤ SELECT_EDU_LIMIT ∧
      (∀ e ∈ deviceLists, e.isDeviceListUpdate = true) ∧
      (∀ e ∈ presenceBundles, e.isPresenceBundle = true) ∧
      presenceBundles.length ≤ 1 := by
  obtain ⟨hall, hlen⟩ := select_edus_rooms_spec inp.ourServer inp.allowReadReceipts inp.rooms
    [] inp.since [] (by simp [SELECT_EDU_LIMIT]) (by simp)
  by_cases hp : inp.allowPresence
  · refine ⟨(select_edus_rooms inp.ourServer inp.allowReadReceipts inp.rooms [] inp.since []).2.2,
      ((select_edus_rooms inp.ourServer inp.allowReadReceipts inp.rooms [] inp.since []).1).map
        Edu.deviceListUpdate,
      [Edu.presenceBundle (presence_updates_loop inp.ourServer inp.seenUsers inp.presence
        (select_edus_rooms inp.ourServer inp.allowReadReceipts inp.rooms [] inp.since []).2.1
        []).2],
      ?_, hall, hlen, ?_, ?_, ?_⟩
    · simp only [select_edus, select_edus_presence, hp, if_true, List.append_assoc]
    · intro e he
      rcases List.mem_map.mp he with ⟨u, _, rfl⟩
      rfl
    · intro e he
      simp only [List.mem_singleton] at he
      subst he; rfl
    · simp
  · refine ⟨(select_edus_rooms inp.ourServer inp.allowReadReceipts inp.rooms [] inp.since []).2.2,
      ((select_edus_rooms inp.ourServer inp.allowReadReceipts inp.rooms [] inp.since []).1).map
        Edu.deviceListUpdate,
      [], ?_, hall, hlen, ?_, ?_, ?_⟩
    · simp only [select_edus, hp, Bool.false_eq_true, if_false, List.append_nil]
    · intro e he
      rcases List.mem_map.mp he with ⟨u, _, rfl⟩
      rfl
    · intro e he
      simp at he
    · simp

/-! ## Schema migrations
Embedding of `migrate` from `src/service/globals/migrations.rs`.  The
database is abstracted to the fields the migration gating reads and writes:
the stored schema version and the presence of the three one-shot sentinels
in the `global` table.  The account-data rewriting done inside `db_lt_12`
and `db_lt_13` touches neither the version nor the sentinels and is not
modelled; each version migration ends by bumping the stored version. -/

/-- `DATABASE_VERSION`, the current schema version of the code. -/
def DATABASE_VERSION : Nat := 13

/-- The persistent state read and written by `migrate`: the stored
`database_version` and the three one-shot sentinels of the `global` table. -/
structure DbState where
  version : Nat
  featSha256Media : Bool
  fixBadDoubleSeparator : Bool
  retroFixJoined : Bool
deriving DecidableEq, Repr

/-- A migration or one-shot fix executed during `migrate`, in execution
order. -/
inductive MigrationStep
  /-- `db_lt_12`, bumps the stored version to 12. -/
  | dbLt12
  /-- `db_lt_13`, bumps the stored version to 13. -/
  | dbLt13
  /-- `migrate_sha256_media`, keyed by the `feat_sha256_media` sentinel. -/
  | sha256Media
  /-- `checkup_sha256_media`, run when the sentinel exists and
  `media_startup_check` is set. -/
  | checkupMedia
  /-- `fix_bad_double_separator_in_state_cache`, keyed by its sentinel. -/
  | fixBadDoubleSeparator
  /-- `retroactively_fix_bad_data_from_roomuserid_joined`, keyed by its
  sentinel. -/
  | retroFixJoined
deriving DecidableEq, Repr

/-- Whether a step is one of the version-bumping migrations (as opposed to a
named one-shot fix). -/
def MigrationStep.isVersionMigration : MigrationStep → Bool
  | .dbLt12 => true
  | .dbLt13 => true
  | _ => false

/-- The errors `migrate` can produce that the claims speak about: the fatal
rejection of a schema version below 11, and the final
`assert_eq!(database_version, DATABASE_VERSION)` failure. -/
inductive MigrateError
  /-- Database error: Database schema version (v) is no longer supported. -/
  | versionNoLongerSupported (v : Nat)
  /-- The closing `assert_eq!` on the stored version failed. -/
  | versionAssertFailed (v : Nat)
deriving DecidableEq, Repr

/-- `db_lt_12`: rewrites legacy push-rule ids for every local user (not
modelled, does not touch version or sentinels), then bumps the stored
version to 12. -/
def db_lt_12 (s : DbState) : DbState :=
  ⟨12, s.featSha256Media, s.fixBadDoubleSeparator, s.retroFixJoined⟩

/-- `db_lt_13`: merges the server-default push rules for every local user
(not modelled, does not touch version or sentinels), then bumps the stored
version to 13. -/
def db_lt_13 (s : DbState) : DbState :=
  ⟨13, s.featSha256Media, s.fixBadDoubleSeparator, s.retroFixJoined⟩

/-- `migrate`: rejects stored versions below 11 as no longer supported, runs
`db_lt_12` and `db_lt_13` guarded by version comparisons, runs the
sentinel-keyed one-shot fixes (each recording its sentinel;
`migrate_sha256_media` is modelled, from its sentinel handling in `migrate`
and `fresh`, as recording `feat_sha256_media`), and finally asserts that the
stored version equals `DATABASE_VERSION`.  Returns the final state and the
executed steps in order. -/
def migrate (s : DbState) (mediaStartupCheck : Bool) :
    Except MigrateError (DbState × List MigrationStep) :=
  if s.version < 11 then .error (.versionNoLongerSupported s.version)
  else
    let (s, steps) :=
      if s.version < 12 then (db_lt_12 s, [MigrationStep.dbLt12]) else (s, [])
    let (s, steps) :=
      if s.version < 13 then (db_lt_13 s, steps ++ [MigrationStep.dbLt13]) else (s, steps)
    let (s, steps) :=
      if !s.featSha256Media then
        (⟨s.version, true, s.fixBadDoubleSeparator, s.retroFixJoined⟩,
          steps ++ [MigrationStep.sha256Media])
      else if mediaStartupCheck then (s, steps ++ [MigrationStep.checkupMedia])
      else (s, steps)
    let (s, steps) :=
      if !s.fixBadDoubleSeparator then
        (⟨s.version, s.featSha256Media, true, s.retroFixJoined⟩,
          steps ++ [MigrationStep.fixBadDoubleSeparator])
      else (s, steps)
    let (s, steps) :=
      if !s.retroFixJoined then
        (⟨s.version, s.featSha256Media, s.fixBadDoubleSeparator, true⟩,
          steps ++ [MigrationStep.retroFixJoined])
      else (s, steps)
    if s.version = DATABASE_VERSION then .ok (s, steps)
    else .error (.versionAssertFailed s.version)

/-- Claim C3: `migrate` rejects any stored version below 11 with the
"no longer supported" database error; starting from stored version 12 the
only version-bumping migration run is `db_lt_13`, it succeeds, and the
stored version afterwards is 13, which is the code constant
`DATABASE_VERSION`. -/
theorem migrate_gating (s : DbState) (mediaStartupCheck : Bool) :
    (s.version < 11 → migrate s mediaStartupCheck = .error (.versionNoLongerSupported s.version)) ∧
    (s.version = 12 →
      ∃ s2 steps, migrate s mediaStartupCheck = .ok (s2, steps) ∧
        steps.filter MigrationStep.isVersionMigration = [MigrationStep.dbLt13] ∧
        s2.version = 13 ∧ s2.version = DATABASE_VERSION) := by
  obtain ⟨v, m, f, r⟩ := s
  constructor
  · intro hv
    simp only at hv
    simp [migrate, hv]
  · intro hv
    simp only at hv
    subst hv
    cases mediaStartupCheck <;> cases m <;> cases f <;> cases r <;>
      exact ⟨_, _, rfl, by decide, by decide, by decide⟩

/-- Witness for C3: version 10 is rejected as no longer supported, and from
version 12 (no sentinels present) the migration succeeds with `db_lt_13` as
the only version migration and a final stored version of 13. -/
theorem migrate_gating_witness :
    migrate ⟨10, false, false, false⟩ false = .error (.versionNoLongerSupported 10) ∧
    (∃ s2 steps, migrate ⟨12, false, false, false⟩ false = .ok (s2, steps) ∧
      steps.filter MigrationStep.isVersionMigration = [MigrationStep.dbLt13] ∧
      s2.version = 13 ∧ s2.version = DATABASE_VERSION) :=
  ⟨(migrate_gating ⟨10, false, false, false⟩ false).1 (by decide),
    (migrate_gating ⟨12, false, false, false⟩ false).2 rfl⟩

/-! ## `retroactively_fix_bad_data_from_roomuserid_joined`
Embedding of the per-room body of the one-shot fix from
`src/service/globals/migrations.rs` (lines 374..419): both member filters
and the two marking passes.  `getMember` is `state_accessor.get_member`,
returning the stored member event content, abstracted to its membership. -/

/-- `MembershipState` for a room member event. -/
inductive MembershipState
  | join
  | leave
  | invite
  | ban
  | knock
deriving DecidableEq, Repr

/-- An effect of the fix on the state cache. -/
inductive FixEffect
  /-- `state_cache.mark_as_joined(user, room)`. -/
  | markAsJoined (user : UserId) (room : RoomId)
  /-- `state_cache.mark_as_left(user, room)`. -/
  | markAsLeft (user : UserId) (room : RoomId)
deriving DecidableEq, Repr

/-- The `joined_members` filter: keeps the users of the room whose member
event has membership `Join`. -/
def joined_members (usersInRoom : List UserId)
    (getMember : UserId → Option MembershipState) : List UserId :=
  usersInRoom.filter fun u =>
    match getMember u with
    | some m => m = MembershipState.join
    | none => false

/-- The `non_joined_members` filter, transcribed from the source: it keeps
the users of the room whose member event has membership `Join` — the same
predicate as `joined_members`, not its negation. -/
def non_joined_members (usersInRoom : List UserId)
    (getMember : UserId → Option MembershipState) : List UserId :=
  usersInRoom.filter fun u =>
    match getMember u with
    | some m => m = MembershipState.join
    | none => false

/-- Per-room effects of the fix: first every `joined_members` user is marked
as joined, then every `non_joined_members` user is marked as left. -/
def retro_fix_room_effects (room : RoomId) (usersInRoom : List UserId)
    (getMember : UserId → Option MembershipState) : List FixEffect :=
  (joined_members usersInRoom getMember).map (fun u => FixEffect.markAsJoined u room) ++
    (non_joined_members usersInRoom getMember).map (fun u => FixEffect.markAsLeft u room)

/-- Claim C9: in `retroactively_fix_bad_data_from_roomuserid_joined` the
`joined_members` and `non_joined_members` collections are computed with the
same membership-is-Join predicate over the same users-in-room list and are
equal; consequently the per-room effect sequence marks exactly the joined
members as joined and then marks those same users as left, so every user
marked as joined in the first pass is marked as left in the second. -/
theorem retro_fix_duplicate_filter (room : RoomId) (usersInRoom : List UserId)
    (getMember : UserId → Option MembershipState) :
    non_joined_members usersInRoom getMember = joined_members usersInRoom getMember ∧
    retro_fix_room_effects room usersInRoom getMember =
      (joined_members usersInRoom getMember).map (fun u => FixEffect.markAsJoined u room) ++
        (joined_members usersInRoom getMember).map (fun u => FixEffect.markAsLeft u room) ∧
    ∀ u ∈ joined_members usersInRoom getMember,
      FixEffect.markAsLeft u room ∈ retro_fix_room_effects room usersInRoom getMember := by
  refine ⟨rfl, rfl, ?_⟩
  intro u hu
  unfold retro_fix_room_effects
  exact List.mem_append_right _ (List.mem_map.mpr ⟨u, hu, rfl⟩)

/-- Witness for C9: in a room with one joined and one banned user, the
joined user is in `joined_members` and the effect list marks that user as
left. -/
theorem retro_fix_duplicate_filter_witness :
    FixEffect.markAsLeft ⟨"alice", "ours"⟩ "room1" ∈
      retro_fix_room_effects "room1" [⟨"alice", "ours"⟩, ⟨"bob", "ours"⟩]
        (fun u => if u = ⟨"alice", "ours"⟩ then some MembershipState.join
          else some MembershipState.ban) :=
  (retro_fix_duplicate_filter "room1" [⟨"alice", "ours"⟩, ⟨"bob", "ours"⟩]
    (fun u => if u = ⟨"alice", "ours"⟩ then some MembershipState.join
      else some MembershipState.ban)).2.2 ⟨"alice", "ours"⟩ (by decide)

/-! ## Membership engine
Embedding of `banned_room_check`, `join_room_by_id_helper` and
`forget_room_route` from `src/api/client/membership.rs`. -/

/-- The client-visible error kinds used by the embedded routes. -/
inductive ApiError
  /-- `Forbidden` with its message. -/
  | forbidden (msg : String)
  /-- `Unknown` with its message. -/
  | unknown (msg : String)
  /-- `BadState` with its message. -/
  | badState (msg : String)
deriving DecidableEq, Repr

/-- The room named in a `banned_room_check` call, reduced to what the check
reads: the server name embedded in the room id (the source unwraps the
optional server part) and the `rooms.metadata.is_banned` flag stored for the
room. -/
structure RoomRef where
  server : ServerName
  bannedLocally : Bool
deriving DecidableEq, Repr

/-- A side effect performed by `banned_room_check` before it returns.
`fullUserDeactivate` is `full_user_deactivate(services, user_id,
all_joined_rooms)`: per the specification it deactivates the user and
forces them out of all the given rooms; it is modelled as an opaque effect
carrying the collected list of the joined rooms of the user. -/
inductive AdminEffect
  /-- A notification posted to the admin room. -/
  | adminRoomMessage
  /-- `full_user_deactivate` over the collected joined rooms of the user. -/
  | fullUserDeactivate (joinedRooms : List RoomId)
deriving DecidableEq, Repr

/-- The state read by one `banned_room_check` call. -/
structure BannedCheckInput where
  /-- `users.is_admin(user_id)`. -/
  isAdmin : Bool
  /-- The `room_id` argument, when given. -/
  roomId : Option RoomRef
  /-- The `server_name` argument, when given. -/
  serverName : Option ServerName
  /-- The `forbidden_remote_server_names` configuration list. -/
  forbiddenRemoteServerNames : List ServerName
  /-- The `auto_deactivate_banned_room_attempts` configuration flag. -/
  autoDeactivateBannedRoomAttempts : Bool
  /-- `rooms_joined(user_id)`, collected when deactivating. -/
  joinedRooms : List RoomId
deriving DecidableEq, Repr

/-- `banned_room_check`: for non-admins, with a room id present, rejects
when the room is banned locally or its server name is globally forbidden,
deactivating the user first when configured; with only a server name
present, rejects on the forbidden-server list analogously.  Admins skip
everything.  Returns the performed effects and the result. -/
def banned_room_check (inp : BannedCheckInput) : List AdminEffect × Except ApiError Unit :=
  if !inp.isAdmin then
    match inp.roomId with
    | some room =>
      if room.bannedLocally || inp.forbiddenRemoteServerNames.contains room.server then
        (if inp.autoDeactivateBannedRoomAttempts then
          [AdminEffect.adminRoomMessage, AdminEffect.fullUserDeactivate inp.joinedRooms]
        else [],
          .error (.forbidden "This room is banned on this homeserver."))
      else ([], .ok ())
    | none =>
      match inp.serverName with
      | some server =>
        if inp.forbiddenRemoteServerNames.contains server then
          (if inp.autoDeactivateBannedRoomAttempts then
            [AdminEffect.adminRoomMessage, AdminEffect.fullUserDeactivate inp.joinedRooms]
          else [],
            .error (.forbidden "This remote server is banned on this homeserver."))
        else ([], .ok ())
      | none => ([], .ok ())
  else ([], .ok ())

/-- Claim C4: a non-admin hitting a locally banned room or a room whose
server name is in `forbidden_remote_server_names` gets
Forbidden("This room is banned on this homeserver."), with the user
deactivated and forced out of all joined rooms beforehand exactly when
`auto_deactivate_banned_room_attempts` is enabled; an admin skips the check
entirely, with no effects. -/
theorem banned_room_check_spec (inp : BannedCheckInput) :
    (inp.isAdmin = true → banned_room_check inp = ([], .ok ())) ∧
    (∀ room, inp.isAdmin = false → inp.roomId = some room →
      (room.bannedLocally = true ∨
        inp.forbiddenRemoteServerNames.contains room.server = true) →
      banned_room_check inp =
        ((if inp.autoDeactivateBannedRoomAttempts then
            [AdminEffect.adminRoomMessage, AdminEffect.fullUserDeactivate inp.joinedRooms]
          else []),
          .error (.forbidden "This room is banned on this homeserver."))) := by
  constructor
  · intro ha
    simp [banned_room_check, ha]
  · intro room ha hr hban
    rcases hban with h1 | h1
    · simp [banned_room_check, ha, hr, h1]
    · have h2 : room.server ∈ inp.forbiddenRemoteServerNames := by simpa using h1
      simp [banned_room_check, ha, hr, h2]

/-- Witness for C4: an admin passes untouched, and a non-admin joining a
banned room on a deactivate-configured server is deactivated out of the one
room they are in and receives the Forbidden error. -/
theorem banned_room_check_spec_witness :
    banned_room_check ⟨true, some ⟨"z", true⟩, none, [], true, []⟩ = ([], .ok ()) ∧
    banned_room_check ⟨false, some ⟨"z", true⟩, none, [], true, ["!a:x"]⟩ =
      ([AdminEffect.adminRoomMessage, AdminEffect.fullUserDeactivate ["!a:x"]],
        .error (.forbidden "This room is banned on this homeserver.")) := by
  constructor
  · exact (banned_room_check_spec ⟨true, some ⟨"z", true⟩, none, [], true, []⟩).1 rfl
  · have := (banned_room_check_spec ⟨false, some ⟨"z", true⟩, none, [], true, ["!a:x"]⟩).2
      ⟨"z", true⟩ rfl rfl (Or.inl rfl)
    simpa using this

/-- Dispatch outcome of `join_room_by_id_helper`.  Only the two dispatch
outcomes run continuations that append membership PDUs or contact other
servers; the guest rejection and the already-joined success return
immediately without writing anything. -/
inductive JoinOutcome
  /-- Err Forbidden: Guests are not allowed to join this room. -/
  | forbiddenGuests
  /-- The already-joined early return: Ok carrying the room id. -/
  | alreadyJoined (room : RoomId)
  /-- Dispatch to `join_room_by_id_helper_local`. -/
  | localJoin
  /-- Dispatch to `join_room_by_id_helper_remote`. -/
  | remoteJoin
deriving DecidableEq, Repr

/-- The state read by `join_room_by_id_helper` before dispatching. -/
structure JoinHelperInput where
  /-- The room being joined. -/
  roomId : RoomId
  /-- `users.is_deactivated(sender_user)` (deactivated accounts are what the
  source treats as guests). -/
  isDeactivated : Bool
  /-- Whether `appservice_info` is present. -/
  hasAppserviceInfo : Bool
  /-- `state_accessor.guest_can_join(room_id)`. -/
  guestCanJoin : Bool
  /-- `state_cache.is_joined(sender_user, room_id)`. -/
  isJoined : Bool
  /-- `state_cache.server_in_room(our_server, room_id)`. -/
  serverInRoom : Bool
  /-- The candidate server list. -/
  servers : List ServerName
  /-- Our own server name (`server_is_ours` compares against it). -/
  ourServer : ServerName
deriving DecidableEq, Repr

/-- `join_room_by_id_helper`: guest gate, already-joined early return, then
dispatch to the local or the remote join path. -/
def join_room_by_id_helper (inp : JoinHelperInput) : JoinOutcome :=
  let user_is_guest := inp.isDeactivated && !inp.hasAppserviceInfo
  if user_is_guest && !inp.guestCanJoin then .forbiddenGuests
  else if inp.isJoined then .alreadyJoined inp.roomId
  else if inp.serverInRoom || inp.servers.isEmpty ||
      (inp.servers.length == 1 && inp.servers.head? == some inp.ourServer) then .localJoin
  else .remoteJoin

/-- A state with a deactivated (guest) user, no appservice, already joined
to a room that does not admit guests. -/
def joinGuestCexInput : JoinHelperInput := ⟨"!r:x", true, false, false, true, true, [], "x"⟩

/-- Counterexample to claim C5: a user already joined to the room does not
always get the idempotent success: the guest gate runs first, so a
deactivated (guest) user already joined to a room that does not admit
guests is rejected with Forbidden instead. -/
theorem join_already_joined_cex :
    joinGuestCexInput.isJoined = true ∧
    join_room_by_id_helper joinGuestCexInput = .forbiddenGuests ∧
    join_room_by_id_helper joinGuestCexInput ≠ .alreadyJoined joinGuestCexInput.roomId := by
  refine ⟨rfl, rfl, by decide⟩

/-- Claim C5 as amended: for every user already joined to the room who is
not rejected by the preceding guest gate (deactivated, no appservice, room
not admitting guests), the helper returns the success carrying the room id
without dispatching to the local or remote join paths, hence appends no
membership PDU, makes no federation request and changes no state. -/
theorem join_already_joined (inp : JoinHelperInput)
    (hg : ((inp.isDeactivated && !inp.hasAppserviceInfo) && !inp.guestCanJoin) = false)
    (hj : inp.isJoined = true) :
    join_room_by_id_helper inp = .alreadyJoined inp.roomId := by
  simp only [join_room_by_id_helper, hg, Bool.false_eq_true, if_false, hj, if_true]

/-- Witness for C5 as amended: an active user already joined gets the
early success. -/
theorem join_already_joined_witness :
    join_room_by_id_helper ⟨"!r:x", false, false, true, true, false, [], "x"⟩ =
      .alreadyJoined "!r:x" :=
  join_already_joined ⟨"!r:x", false, false, true, true, false, [], "x"⟩ (by decide) rfl

/-- `state_cache.is_joined`.  Modelled from the spec: the state-cache
accessor itself lives outside the excerpt; per the data model, membership is
stored both denormalized for fast listing and as the member state event, so
`is_joined` holds exactly when the stored membership is `join`. -/
def is_joined (membership : Option MembershipState) : Bool :=
  membership = some MembershipState.join

/-- `forget_room_route`: refuses while the user is still joined, otherwise
marks the room forgotten.  The second component is the forgotten flag of
the (room, user) pair, returned unchanged on refusal. -/
def forget_room_route (membership : Option MembershipState) (forgotten : Bool) :
    Except ApiError Unit × Bool :=
  if is_joined membership then
    (.error (.unknown "You must leave the room before forgetting it"), forgotten)
  else (.ok (), true)

/-- Counterexample to claim C8: `forget_room` does not require membership
`leave`; a user with membership `invite` (not joined, not leave) succeeds
in forgetting the room. -/
theorem forget_room_cex :
    forget_room_route (some MembershipState.invite) false = (.ok (), true) ∧
    some MembershipState.invite ≠ some MembershipState.leave := by
  exact ⟨rfl, by decide⟩

/-- Claim C8 as amended: `forget_room` refuses, with an Unknown-kind error
"You must leave the room before forgetting it" (not BadState), exactly when
the user is still joined — equivalently when the stored membership is
`join` — leaving the forgotten flag unchanged; for every other membership
(leave, but also invite, ban, knock or none) it succeeds and marks the room
forgotten. -/
theorem forget_room_spec (membership : Option MembershipState) (forgotten : Bool) :
    (is_joined membership = true →
      forget_room_route membership forgotten =
        (.error (.unknown "You must leave the room before forgetting it"), forgotten)) ∧
    (is_joined membership = false → forget_room_route membership forgotten = (.ok (), true)) ∧
    (is_joined membership = true ↔ membership = some MembershipState.join) := by
  refine ⟨?_, ?_, ?_⟩
  · intro hj
    simp [forget_room_route, hj]
  · intro hj
    simp [forget_room_route, hj]
  · simp [is_joined]

/-- Witness for C8 as amended: a joined user is refused with the Unknown
error and keeps the unforgotten flag; a left user forgets successfully. -/
theorem forget_room_spec_witness :
    forget_room_route (some MembershipState.join) false =
      (.error (.unknown "You must leave the room before forgetting it"), false) ∧
    forget_room_route (some MembershipState.leave) false = (.ok (), true) :=
  ⟨(forget_room_spec (some MembershipState.join) false).1 (by decide),
    (forget_room_spec (some MembershipState.leave) false).2.1 (by decide)⟩

end Conduwuit
